import Mathlib

/-!
Shallow embedding of the resilient batch download–convert–upload pipeline of
the dnbmarc-batch-dl repository (files `src/python/converter/convert.py`,
`src/python/converter/get_records.py`, `src/python/utils/pg_model.py`,
`src/python/converter2/download_files.py`), together with theorems settling
the specification claims about it.

Conventions used by the embedding:
* machine state (database rows, the blacklist JSON file, files on disk) is
  passed explicitly;
* fallible external actions (HTTP requests, PDF parsing, the conversion
  engine, the Drive upload) are parameters of the embedded functions,
  given as explicit outcome values;
* Python exceptions are modelled by `Except`/`Option` outcomes and by the
  explicit control flow the `try`/`except` blocks of the source give them.
-/

namespace DnbMarc

/-! ## Blacklist (`convert.py` lines 34–58, `get_records.py` lines 79–88)

The blacklist file `failed_pdfs.json` is a JSON object mapping PDF id to
failure reason.  We embed it as an association list. -/

/-- The blacklist file contents: pdf id ↦ reason, in file order. -/
abbrev Blacklist := List (String × String)

/-- Keys of the blacklist.  `get_records.load_blacklist` returns
`set(json.load(f))`, i.e. exactly the key set of the JSON object. -/
def blacklistKeys (bl : Blacklist) : List String :=
  bl.map Prod.fst

/-- Lookup of a reason in the blacklist (first binding wins, as in a JSON
object whose keys are unique). -/
def blacklistLookup (bl : Blacklist) (k : String) : Option String :=
  (bl.find? (fun p => p.1 == k)).map Prod.snd

/-- Embeds `add_to_blacklist` (`convert.py` lines 48–58): load the JSON
dict, set `blacklist[pdf_id] = reason`, write it back.  Setting a key of a
dict overwrites an existing binding and otherwise appends a new one. -/
def add_to_blacklist (bl : Blacklist) (pdf_id reason : String) : Blacklist :=
  if (blacklistKeys bl).contains pdf_id then
    bl.map (fun p => if p.1 == pdf_id then (pdf_id, reason) else p)
  else
    bl ++ [(pdf_id, reason)]

/-! ## Database rows (`pg_model.py` lines 18–55)

Only the columns the claims touch are carried; the remaining columns of
`DNBRecord` are never read or written by the embedded functions. -/

/-- One `dnb_records` row, restricted to the columns used by the pipeline:
`idn` (string id), `url_dnb_archive`, `converted_file`, `drive_file_id`. -/
structure DNBRecord where
  idn : String
  url_dnb_archive : Option String
  converted_file : Option String
  drive_file_id : Option String
  deriving Repr, DecidableEq

/-- Embeds `mark_record_as_processed` (`get_records.py` lines 66–77):
find the first row with the given `idn`; if present, set its
`converted_file` and `drive_file_id` columns and commit; if absent, log a
warning and change nothing. -/
def mark_record_as_processed (db : List DNBRecord) (pdf_id : String)
    (drive_file_id : Option String) (drive_filename : Option String) :
    List DNBRecord :=
  match db with
  | [] => []
  | r :: rs =>
    if r.idn == pdf_id then
      { r with converted_file := drive_filename, drive_file_id := drive_file_id } :: rs
    else
      r :: mark_record_as_processed rs pdf_id drive_file_id drive_filename

/-! ## PDF files and `validate_pdf` (`convert.py` lines 60–94)

A downloaded file is abstracted by its raw bytes (only the first five are
inspected and the length is used as the file size), the outcome of parsing
it with `PyPDF2.PdfReader` (error message or page count), the outcome of
accessing its first page, and a possible I/O error when opening/reading the
file at all. -/

/-- Outcome of `PyPDF2.PdfReader(file)`: an exception or a page count. -/
inductive ParseResult where
  | error (msg : String)
  | ok (pages : Nat)
  deriving Repr, DecidableEq

/-- Abstraction of a file on disk as `validate_pdf` observes it. -/
structure PdfFile where
  bytes : List Nat
  parse : ParseResult
  firstPageErr : Option String
  openErr : Option String
  deriving Repr, DecidableEq

/-- The bytes of the signature `%PDF-`. -/
def pdfSignature : List Nat := [37, 80, 68, 70, 45]

/-- Embeds `validate_pdf` (`convert.py` lines 60–94).  Every internal
exception is caught and mapped to `(False, reason)`; the function returns
`(True, None)` only after the signature check, the page-count bounds and
the first-page access all pass. -/
def validate_pdf (f : PdfFile) : Bool × Option String :=
  match f.openErr with
  | some e => (false, some ("PDF validation failed: " ++ e))
  | none =>
    if f.bytes.take 5 ≠ pdfSignature then
      (false, some "Invalid PDF signature")
    else
      match f.parse with
      | .error e => (false, some ("PDF validation failed: " ++ e))
      | .ok pages =>
        if pages = 0 then
          (false, some "PDF has no pages")
        else if pages > 200 then
          (false, some ("PDF exceeds 200 page limit (has " ++ toString pages ++ " pages)"))
        else
          match f.firstPageErr with
          | some e => (false, some ("Cannot access first page: " ++ e))
          | none => (true, none)

/-! ## Batch Cursor (`get_records.py` lines 90–126)

`get_pdf_links` loads the blacklist once when the generator starts
(line 95, "Load blacklist once at start") and then repeatedly issues the
query of lines 102–109: filter `url_dnb_archive IS NOT NULL`,
`converted_file IS NULL`, `idn NOT IN blacklist`, `ORDER BY idn`,
`OFFSET offset LIMIT batch_size`; it yields the rows as
`(str(idn), url_dnb_archive)` pairs, adds `batch_size` to `offset`, and
stops at the first empty result.  The sort is embedded as an insertion
sort on the `idn` column. -/

/-- Lexicographic comparison of code-point lists, used to embed the SQL
`ORDER BY idn` (the `idn` values are ASCII, so byte order and collation
order agree). -/
def natListLe : List Nat → List Nat → Bool
  | [], _ => true
  | _ :: _, [] => false
  | a :: as, b :: bs => if a < b then true else if b < a then false else natListLe as bs

/-- The id order used by the `ORDER BY idn` sort. -/
def idnLe (a b : String) : Bool :=
  natListLe (a.data.map Char.toNat) (b.data.map Char.toNat)

/-- Insertion step of the `ORDER BY idn` sort. -/
def insertByIdn (r : DNBRecord) : List DNBRecord → List DNBRecord
  | [] => [r]
  | x :: xs => if idnLe r.idn x.idn then r :: x :: xs else x :: insertByIdn r xs

/-- The `ORDER BY idn` sort of a result set. -/
def sortByIdn : List DNBRecord → List DNBRecord
  | [] => []
  | x :: xs => insertByIdn x (sortByIdn xs)

/-- The row filter of the query (lines 103–105): has a source URL, not yet
converted, id not in the blacklist snapshot. -/
def recordEligible (snapshot : List String) (r : DNBRecord) : Bool :=
  r.url_dnb_archive.isSome && r.converted_file.isNone && !(snapshot.contains r.idn)

/-- One execution of the SELECT of lines 102–109 followed by the row
mapping of line 114. -/
def queryBatch (db : List DNBRecord) (snapshot : List String)
    (offset batch_size : Nat) : List (String × String) :=
  (((sortByIdn (db.filter (recordEligible snapshot))).drop offset).take batch_size).map
    (fun r => (r.idn, r.url_dnb_archive.getD ""))

/-- Generator state of `get_pdf_links`: the blacklist key set loaded once
at start, and the running `offset`. -/
structure CursorState where
  snapshot : List String
  offset : Nat
  deriving Repr, DecidableEq

/-- What one loop iteration of `get_pdf_links` produces: the yielded
batch, the generator state after `offset += batch_size`, and the database
as the query left it. -/
structure CursorYield where
  batch : List (String × String)
  next : CursorState
  db : List DNBRecord
  deriving Repr, DecidableEq

/-- Generator creation: `load_blacklist()` is called once and its key set
becomes the snapshot used by every subsequent query of this run. -/
def startCursor (blacklistFile : Blacklist) : CursorState :=
  ⟨blacklistKeys blacklistFile, 0⟩

/-- One iteration of the `while True` loop of lines 98–117: run the query
against the current database; an empty result breaks the loop (`none`),
otherwise the batch is yielded and the offset advances.  The blacklist
file is not re-read: only the snapshot in the state is consulted. -/
def cursorNext (db : List DNBRecord) (s : CursorState) (batch_size : Nat) :
    Option CursorYield :=
  if (queryBatch db s.snapshot s.offset batch_size).isEmpty then none
  else some ⟨queryBatch db s.snapshot s.offset batch_size,
             ⟨s.snapshot, s.offset + batch_size⟩, db⟩

/-- All batches the generator yields from a given state, with fuel (the
loop yields at most one nonempty batch per `batch_size` rows, so any fuel
of at least `db.length + 1` is enough). -/
def genBatches (db : List DNBRecord) (batch_size : Nat) :
    CursorState → Nat → List (List (String × String))
  | _, 0 => []
  | s, fuel + 1 =>
    match cursorNext db s batch_size with
    | none => []
    | some y => y.batch :: genBatches db batch_size y.next fuel

/-- Embeds a full run of `get_pdf_links(batch_size)` over an unchanging
database: the list of every yielded batch. -/
def get_pdf_links (db : List DNBRecord) (blacklistFile : Blacklist)
    (batch_size : Nat) : List (List (String × String)) :=
  genBatches db batch_size (startCursor blacklistFile) (db.length + 1)

/-! ## Fetcher (`convert.py` lines 96–167)

`download_with_retry(pdf_id, pdf_url, local_path, max_retries=3)` loops
`for attempt in range(max_retries)`.  Each attempt performs the HTTP GET
and streams the body into `local_path + ".tmp"`; the outcome of attempt
`i` is given by `outcomes i`.  The files at the temp path and at the
final path are tracked explicitly. -/

/-- The two file locations `download_with_retry` touches. -/
structure LocalFiles where
  temp : Option PdfFile
  final : Option PdfFile
  deriving Repr, DecidableEq

/-- What one download attempt does, as seen by the `try` block of lines
104–136: a `requests.RequestException` (possibly after part of the body
was written to the temp file), some other exception, or a completed
write of the body to the temp file. -/
inductive AttemptOutcome where
  | requestError (partialContent : Option PdfFile) (msg : String)
  | unexpectedError (partialContent : Option PdfFile) (msg : String)
  | content (f : PdfFile)
  deriving Repr, DecidableEq

/-- Everything `download_with_retry` leaves behind: its return value, the
blacklist file, the two file locations, the sequence of `time.sleep`
delays in seconds, and how many attempts began. -/
structure DownloadResult where
  success : Bool
  blacklist : Blacklist
  files : LocalFiles
  sleeps : List Nat
  attemptsUsed : Nat
  deriving Repr, DecidableEq

/-- The retry loop of `download_with_retry` (lines 101–167).  `remaining`
counts the iterations `range(max_retries)` still has; `attempt` is the
current loop index; `lastError` and `sleeps` accumulate.  Exits:
* loop exhausted (lines 165–167): blacklist `last_error or "Unknown
  error"`, return `False`;
* body downloaded and `validate_pdf` passes (lines 124–129): rename temp
  to final, return `True`;
* body downloaded and `validate_pdf` fails (lines 130–136): remove temp,
  blacklist the validation reason, return `False` immediately — no retry;
* `RequestException` (lines 138–151): remove temp and final if present,
  sleep `2 ** attempt` unless this was the last attempt, continue;
* other exception (lines 153–163): remove temp and final if present,
  `break` to the post-loop blacklisting. -/
def downloadRetryLoop (pdf_id : String) (outcomes : Nat → AttemptOutcome)
    (max_retries : Nat) (bl : Blacklist) :
    Nat → Nat → Option String → List Nat → LocalFiles → DownloadResult
  | 0, attempt, lastError, sleeps, fs =>
    ⟨false, add_to_blacklist bl pdf_id (lastError.getD "Unknown error"), fs, sleeps, attempt⟩
  | remaining + 1, attempt, _lastError, sleeps, fs =>
    match outcomes attempt with
    | .content f =>
      match validate_pdf f with
      | (true, _) =>
        ⟨true, bl, ⟨none, some f⟩, sleeps, attempt + 1⟩
      | (false, reason) =>
        ⟨false, add_to_blacklist bl pdf_id (reason.getD ""), ⟨none, fs.final⟩, sleeps, attempt + 1⟩
    | .requestError _p msg =>
      let lastError' := some ("Download failed: " ++ msg)
      if attempt < max_retries - 1 then
        downloadRetryLoop pdf_id outcomes max_retries bl remaining (attempt + 1)
          lastError' (sleeps ++ [2 ^ attempt]) ⟨none, none⟩
      else
        downloadRetryLoop pdf_id outcomes max_retries bl remaining (attempt + 1)
          lastError' sleeps ⟨none, none⟩
    | .unexpectedError _p msg =>
      ⟨false, add_to_blacklist bl pdf_id ("Unexpected error: " ++ msg), ⟨none, none⟩, sleeps, attempt + 1⟩

/-- Embeds `download_with_retry` (`convert.py` lines 96–167), starting
from file state `fs` (what is on disk at the two paths when the call
begins). -/
def download_with_retry (pdf_id : String) (outcomes : Nat → AttemptOutcome)
    (max_retries : Nat) (bl : Blacklist) (fs : LocalFiles) : DownloadResult :=
  downloadRetryLoop pdf_id outcomes max_retries bl max_retries 0 none [] fs

/-! ## Batch download (`convert.py` lines 169–199) -/

/-- Result of `download_batch`: the `downloaded` list (the content field
is the file that `download_with_retry` left at the local path), the
blacklist file, and the database after the `mark_record_as_processed`
calls. -/
structure BatchDownloadState where
  downloaded : List (String × String × Option PdfFile)
  blacklistFile : Blacklist
  db : List DNBRecord
  deriving Repr, DecidableEq

/-- Embeds `download_batch` (`convert.py` lines 169–199).  `blacklistVar`
is the local `blacklist` variable loaded once at line 174; `file` is the
actual blacklist file, which `download_with_retry` may extend.  For each
`(pdf_id, pdf_url)`: a pdf id already in `blacklistVar` is skipped and
marked processed with a `Blacklisted:` reason (lines 180–184); otherwise
`download_with_retry` runs with `max_retries = 3`; success appends to
`downloaded`, failure marks the record processed with `Failed:` plus the
reason looked up in the (stale) `blacklistVar` (lines 186–192). -/
def download_batch (outcomes : String → Nat → AttemptOutcome)
    (blacklistVar : Blacklist) :
    List (String × String) → Blacklist → List DNBRecord → BatchDownloadState
  | [], file, db => ⟨[], file, db⟩
  | (pdf_id, pdf_url) :: rest, file, db =>
    if (blacklistKeys blacklistVar).contains pdf_id then
      let reason := (blacklistLookup blacklistVar pdf_id).getD ""
      let db' := mark_record_as_processed db pdf_id none (some ("Blacklisted: " ++ reason))
      download_batch outcomes blacklistVar rest file db'
    else
      let res := download_with_retry pdf_id (outcomes pdf_id) 3 file ⟨none, none⟩
      if res.success then
        let st := download_batch outcomes blacklistVar rest res.blacklist db
        ⟨(pdf_id, pdf_url, res.files.final) :: st.downloaded, st.blacklistFile, st.db⟩
      else
        let failure_reason := (blacklistLookup blacklistVar pdf_id).getD "Unknown error"
        let db' := mark_record_as_processed db pdf_id none (some ("Failed: " ++ failure_reason))
        let st := download_batch outcomes blacklistVar rest res.blacklist db'
        ⟨st.downloaded, st.blacklistFile, st.db⟩

/-! ## Offload Sink (`convert.py` lines 201–226) -/

/-- What `dfm.upload_file(service, file_path, DRIVE_FOLDER_ID)` did:
raised an exception, or returned a `(file_id, filename)` pair.  `none`
stands for a falsy component (`None` or the empty string), matching the
`if file_id and filename` truthiness test of line 214. -/
inductive UploadOutcome where
  | raised (msg : String)
  | returned (file_id : Option String) (filename : Option String)
  deriving Repr, DecidableEq

/-- Result of `upload_file_to_drive`: the returned triple and whether the
local artifact was renamed into the `uploaded/` folder. -/
structure UploadResult where
  success : Bool
  file_id : Option String
  filename : Option String
  movedToUploaded : Bool
  deriving Repr, DecidableEq

/-- Embeds `upload_file_to_drive` (`convert.py` lines 201–226): on a
truthy id/filename pair, make the `uploaded/` folder, rename the file
into it and return `(True, file_id, filename)`; on a falsy pair or an
exception, return `(False, None, None)` without touching the file. -/
def upload_file_to_drive (u : UploadOutcome) : UploadResult :=
  match u with
  | .raised _ => ⟨false, none, none, false⟩
  | .returned file_id filename =>
    match file_id, filename with
    | some i, some n => ⟨true, some i, some n, true⟩
    | some _, none => ⟨false, none, none, false⟩
    | none, _ => ⟨false, none, none, false⟩

/-! ## Conversion loop (`convert.py` lines 228–303)

`process_batch` iterates over the downloaded batch with the single
`converter` object built in `main`; there is one conversion context, and
each item leads to at most one `converter(pdf_path)` call.  Conversion
calls are numbered globally by a counter so that the outcome of the
`i`-th call the process makes is `convOutcomes i`. -/

/-- Outcome of one `converter(pdf_path)` call (plus the following
`text_from_rendered`): an exception (for example CUDA out of memory) or
the produced markdown text. -/
inductive ConvOutcome where
  | raised (msg : String)
  | ok (markdown : String)
  deriving Repr, DecidableEq

/-- Everything that happened while `process_batch` handled one item. -/
structure ItemTrace where
  pdf_id : String
  ok : Bool
  convCalls : Nat
  pdfRemains : Bool
  mmdRemains : Bool
  uploadedArtifact : Option (String × String)
  deriving Repr, DecidableEq

/-- Embeds the body of the `for` loop of `process_batch` (lines 235–301)
for one item.  `content` is the file at `pdf_path` (`none` when the file
does not exist, line 242).  Checks in source order: existence, zero size
(line 250), `validate_pdf` (line 256), the metadata `PdfReader` read
(lines 263–271), then the conversion call, the markdown write and the
upload.  The `finally` block (lines 292–300) removes whatever is left at
`pdf_path` and `mmd_path` on every path. -/
def processItem (convOutcomes : Nat → ConvOutcome) (upload : UploadOutcome)
    (db : List DNBRecord) (convCounter : Nat)
    (pdf_id : String) (content : Option PdfFile) :
    ItemTrace × List DNBRecord × Nat :=
  match content with
  | none => (⟨pdf_id, false, 0, false, false, none⟩, db, convCounter)
  | some f =>
    if f.bytes.length = 0 then
      (⟨pdf_id, false, 0, false, false, none⟩, db, convCounter)
    else
      match validate_pdf f with
      | (false, _) => (⟨pdf_id, false, 0, false, false, none⟩, db, convCounter)
      | (true, _) =>
        match f.parse with
        | .error _ => (⟨pdf_id, false, 0, false, false, none⟩, db, convCounter)
        | .ok _ =>
          match convOutcomes convCounter with
          | .raised _ =>
            (⟨pdf_id, false, 1, false, false, none⟩, db, convCounter + 1)
          | .ok _markdown =>
            let u := upload_file_to_drive upload
            if u.success then
              (⟨pdf_id, true, 1, false, false,
                  some (u.file_id.getD "", u.filename.getD "")⟩,
               mark_record_as_processed db pdf_id u.file_id u.filename,
               convCounter + 1)
            else
              (⟨pdf_id, false, 1, false, false, none⟩, db, convCounter + 1)

/-- Result of `process_batch`: the returned `results` list, the per-item
traces, the database, the blacklist file (which `process_batch` never
writes: lines 228–303 contain no `add_to_blacklist` call), and the final
conversion-call counter. -/
structure ProcessBatchResult where
  results : List Bool
  traces : List ItemTrace
  db : List DNBRecord
  blacklistFile : Blacklist
  convCallCount : Nat
  deriving Repr, DecidableEq

/-- Embeds `process_batch` (`convert.py` lines 228–303) over the
downloaded batch, with `uploads pdf_id` giving the Drive upload outcome
for an item. -/
def process_batch (convOutcomes : Nat → ConvOutcome)
    (uploads : String → UploadOutcome) :
    List (String × String × Option PdfFile) → List DNBRecord → Blacklist →
    Nat → ProcessBatchResult
  | [], db, bl, cc => ⟨[], [], db, bl, cc⟩
  | (pdf_id, _pdf_url, content) :: rest, db, bl, cc =>
    let step := processItem convOutcomes (uploads pdf_id) db cc pdf_id content
    let st := process_batch convOutcomes uploads rest step.2.1 bl step.2.2
    ⟨step.1.ok :: st.results, step.1 :: st.traces, st.db, st.blacklistFile, st.convCallCount⟩

/-! ## The other downloader variant
(`converter2/download_files.py` lines 53–101) -/

/-- Outcome of the `requests.get(url, ...)` of line 58 together with the
streamed body: an exception, or the body bytes (as a `PdfFile`). -/
inductive HttpOutcome where
  | raised (msg : String)
  | body (f : PdfFile)
  deriving Repr, DecidableEq

/-- Return value of `download_and_save_file`: `None` on failure, the bare
file name when the final file already existed (line 68), or the metadata
dict of lines 87–91. -/
inductive DSFResult where
  | failed
  | skippedExisting (file_name : String)
  | saved (file_name : String) (file_size : Nat) (num_pages : Nat)
  deriving Repr, DecidableEq

/-- Files at the final path and at the `NamedTemporaryFile` path after a
`download_and_save_file` call. -/
structure DSFState where
  finalFile : Option PdfFile
  tempFile : Option PdfFile
  deriving Repr, DecidableEq

/-- Embeds `download_and_save_file` (`download_files.py` lines 53–101).
`ext` is `os.path.splitext(url)[1] or ".pdf"`; `fitzPages` is
`get_pdf_pages` (lines 184–205), which returns 0 instead of raising when
fitz cannot read the file; `existingFinal` is the file already at the
final path, if any.  On a completed download the temp file is moved to
the final path by `shutil.move` (line 79) before the metadata is read; no
validation of the content happens anywhere in this function.  The
`finally` block (lines 96–101) unlinks the temp file if it still
exists. -/
def download_and_save_file (id ext : String) (http : HttpOutcome)
    (fitzPages : PdfFile → Nat) (existingFinal : Option PdfFile) :
    DSFResult × DSFState :=
  match http with
  | .raised _ => (.failed, ⟨existingFinal, none⟩)
  | .body f =>
    match existingFinal with
    | some old => (.skippedExisting (id ++ ext), ⟨some old, none⟩)
    | none => (.saved (id ++ ext) f.bytes.length (fitzPages f), ⟨some f, none⟩)

/-! ## Batch boundary of `main` (`convert.py` lines 344–386) -/

/-- What the body of the `for batch in get_pdf_links(...)` loop does at a
batch boundary. -/
inductive BoundaryOutcome where
  | exitCode (code : Nat)
  | continueRun (lastSuccessful : Nat)
  deriving Repr, DecidableEq

/-- Embeds the tail of the loop body of `main` for a nonempty batch
(`convert.py` lines 358–386).  If `download_batch` returned an empty
list, lines 362–365 run `for pdf_id, _ in batch: if pdf_id not in
blacklist`, and the name `blacklist` is not defined in `main` (nor at
module level), so a `NameError` is raised, caught by the handler at line
388, and the process exits with status 1.  Otherwise `process_batch` ran:
a positive `processed_count` refreshes `last_successful_conversion` to
the current time and the loop continues; with zero successes and more
than 900 seconds (15 minutes) since the last success the process exits
with status 1 (lines 371–377); otherwise the loop continues with
`last_successful_conversion` unchanged. -/
def batchBoundary (downloadedEmpty : Bool) (processedCount : Nat)
    (now lastSuccessful : Nat) : BoundaryOutcome :=
  if downloadedEmpty then .exitCode 1
  else if 0 < processedCount then .continueRun now
  else if 900 < now - lastSuccessful then .exitCode 1
  else .continueRun lastSuccessful

/-! ## Concrete example inputs used by witnesses and counterexamples -/

/-- A structurally valid three-page PDF file. -/
def goodPdf : PdfFile :=
  ⟨pdfSignature ++ [49, 46, 52, 10], ParseResult.ok 3, none, none⟩

/-- A file whose first bytes are not the PDF signature. -/
def badSigPdf : PdfFile :=
  ⟨[60, 104, 116, 109, 108], ParseResult.error "EOF marker not found", none, none⟩

/-- A one-row database whose record is eligible for download. -/
def cdb1 : List DNBRecord := [⟨"001", some "u1", none, none⟩]

/-- A two-row database, both records eligible for download. -/
def cdb2 : List DNBRecord :=
  [⟨"001", some "u1", none, none⟩, ⟨"002", some "u2", none, none⟩]

/-- Download attempts that always fail with a network timeout. -/
def alwaysTimeout : Nat → AttemptOutcome :=
  fun _ => AttemptOutcome.requestError none "timed out"

/-- Download attempts that always deliver the given file. -/
def alwaysContent (f : PdfFile) : Nat → AttemptOutcome :=
  fun _ => AttemptOutcome.content f

/-- A conversion engine whose first call raises CUDA out of memory and
whose later calls would succeed. -/
def oomThenOk : Nat → ConvOutcome :=
  fun i => if i = 0 then ConvOutcome.raised "CUDA out of memory"
           else ConvOutcome.ok "# converted"

/-! ## Helper lemmas -/

/-- Appending cannot shrink a string below the length of its left part. -/
theorem length_append_pos (a b : String) (h : 0 < a.length) :
    0 < (a ++ b).length := by
  rw [String.length_append]
  omega

/-! ## Claim theorems -/

/-- C7: the Completion Recorder is idempotent — calling
`mark_record_as_processed` twice with the same pdf id, Drive file id and
filename leaves the database rows exactly as one call does, and the
second call is an ordinary no-op update rather than an error. -/
theorem mark_record_as_processed_idempotent (db : List DNBRecord)
    (pdf_id : String) (drive_file_id drive_filename : Option String) :
    mark_record_as_processed
        (mark_record_as_processed db pdf_id drive_file_id drive_filename)
        pdf_id drive_file_id drive_filename
      = mark_record_as_processed db pdf_id drive_file_id drive_filename := by
  induction db with
  | nil => rfl
  | cons r rs ih =>
    by_cases h : r.idn == pdf_id
    · simp [mark_record_as_processed, h]
    · simp [mark_record_as_processed, h, ih]

/-- Shared case analysis of `validate_pdf`: a `False` verdict always
carries a non-empty reason, and a `True` verdict needs the signature and
the page bounds. -/
theorem validate_pdf_spec_aux (f : PdfFile) :
    ((validate_pdf f).1 = false →
      ∃ r, (validate_pdf f).2 = some r ∧ 0 < r.length) ∧
    ((validate_pdf f).1 = true →
      f.bytes.take 5 = pdfSignature ∧
      ∃ n, f.parse = ParseResult.ok n ∧ 1 ≤ n ∧ n ≤ 200) := by
  rcases f with ⟨bytes, parse, fpe, oe⟩
  unfold validate_pdf
  cases oe with
  | some e =>
    exact ⟨fun _ => ⟨_, rfl, length_append_pos _ _ (by decide)⟩,
           fun h => by simp at h⟩
  | none =>
    dsimp only
    by_cases hs : bytes.take 5 ≠ pdfSignature
    · rw [if_pos hs]
      exact ⟨fun _ => ⟨_, rfl, by decide⟩, fun h => by simp at h⟩
    · rw [if_neg hs]
      push_neg at hs
      cases parse with
      | error e =>
        exact ⟨fun _ => ⟨_, rfl, length_append_pos _ _ (by decide)⟩,
               fun h => by simp at h⟩
      | ok pages =>
        dsimp only
        by_cases h0 : pages = 0
        · rw [if_pos h0]
          exact ⟨fun _ => ⟨_, rfl, by decide⟩, fun h => by simp at h⟩
        · rw [if_neg h0]
          by_cases h200 : pages > 200
          · rw [if_pos h200]
            exact ⟨fun _ => ⟨_, rfl,
                     length_append_pos _ _ (length_append_pos _ _ (by decide))⟩,
                   fun h => by simp at h⟩
          · rw [if_neg h200]
            cases fpe with
            | some e =>
              exact ⟨fun _ => ⟨_, rfl, length_append_pos _ _ (by decide)⟩,
                     fun h => by simp at h⟩
            | none =>
              exact ⟨fun h => by simp at h,
                     fun _ => ⟨hs, pages, rfl, by omega, by omega⟩⟩

/-- C10: `validate_pdf` always returns a `(Bool, Option String)` pair
(every internal exception is mapped to an invalid result in the
embedding); whenever the verdict is `False` the reason is a non-empty
string, and the verdict is `True` only when the file starts with the PDF
signature and parses to between 1 and 200 pages. -/
theorem validate_pdf_total_spec (f : PdfFile) :
    ((validate_pdf f).1 = false →
      ∃ r, (validate_pdf f).2 = some r ∧ 0 < r.length) ∧
    ((validate_pdf f).1 = true →
      f.bytes.take 5 = pdfSignature ∧
      ∃ n, f.parse = ParseResult.ok n ∧ 1 ≤ n ∧ n ≤ 200) :=
  validate_pdf_spec_aux f

/-- Closed witness for C10 at concrete files: the invalid-signature file
gets a non-empty reason, and the valid three-page file passes with the
signature and page bounds established. -/
theorem validate_pdf_total_spec_witness :
    (∃ r, (validate_pdf badSigPdf).2 = some r ∧ 0 < r.length) ∧
    (goodPdf.bytes.take 5 = pdfSignature ∧
      ∃ n, goodPdf.parse = ParseResult.ok n ∧ 1 ≤ n ∧ n ≤ 200) :=
  ⟨(validate_pdf_total_spec badSigPdf).1 (by decide),
   (validate_pdf_total_spec goodPdf).2 (by decide)⟩

/-- C4: at a batch boundary reached with zero completed items and a gap
of more than 900 seconds (15 minutes) since the last successful
completion, `main` exits with a non-zero status; if at least one item of
the batch completed, the run continues into the next batch (and the
last-success clock is refreshed to the current time). -/
theorem stall_detection (downloadedEmpty : Bool)
    (processedCount now lastSuccessful : Nat) :
    (processedCount = 0 → 900 < now - lastSuccessful →
      ∃ c, batchBoundary downloadedEmpty processedCount now lastSuccessful
            = BoundaryOutcome.exitCode c ∧ c ≠ 0) ∧
    (downloadedEmpty = false → 0 < processedCount →
      batchBoundary downloadedEmpty processedCount now lastSuccessful
        = BoundaryOutcome.continueRun now) := by
  constructor
  · intro hpc hgap
    subst hpc
    cases downloadedEmpty with
    | true => exact ⟨1, by simp [batchBoundary], by decide⟩
    | false => exact ⟨1, by simp [batchBoundary, hgap], by decide⟩
  · intro hde hpc
    subst hde
    simp [batchBoundary, hpc, Nat.pos_iff_ne_zero.mp hpc]

/-- Closed witness for C4: with zero completions and a 1000-second gap
the boundary exits non-zero; with two completions it continues. -/
theorem stall_detection_witness :
    (∃ c, batchBoundary false 0 1000 0 = BoundaryOutcome.exitCode c ∧ c ≠ 0) ∧
    batchBoundary false 2 1000 0 = BoundaryOutcome.continueRun 1000 :=
  ⟨(stall_detection false 0 1000 0).1 rfl (by decide),
   (stall_detection false 2 1000 0).2 rfl (by decide)⟩

/-! ### Cursor helper lemmas -/

/-- Membership in an insertion step of the `ORDER BY idn` sort. -/
theorem mem_insertByIdn {x r : DNBRecord} {l : List DNBRecord} :
    x ∈ insertByIdn r l ↔ x = r ∨ x ∈ l := by
  induction l with
  | nil => simp [insertByIdn]
  | cons y ys ih =>
    by_cases h : idnLe r.idn y.idn = true
    · simp [insertByIdn, h]
    · simp only [insertByIdn, if_neg h, List.mem_cons, ih]
      tauto

/-- The sort permutes membership. -/
theorem mem_sortByIdn {x : DNBRecord} {l : List DNBRecord} :
    x ∈ sortByIdn l ↔ x ∈ l := by
  induction l with
  | nil => simp [sortByIdn]
  | cons y ys ih => simp [sortByIdn, mem_insertByIdn, ih]

/-- Totality of the code-point comparison. -/
theorem natListLe_total : ∀ as bs : List Nat,
    natListLe as bs = true ∨ natListLe bs as = true := by
  intro as
  induction as with
  | nil => intro bs; left; rfl
  | cons a as ih =>
    intro bs
    cases bs with
    | nil => right; rfl
    | cons b bs =>
      by_cases h1 : a < b
      · left; simp [natListLe, h1]
      · by_cases h2 : b < a
        · right; simp [natListLe, h2]
        · rcases ih bs with h | h
          · left; simp [natListLe, h1, h2, h]
          · right; simp [natListLe, h1, h2, h]

/-- Transitivity of the code-point comparison. -/
theorem natListLe_trans : ∀ as bs cs : List Nat,
    natListLe as bs = true → natListLe bs cs = true →
    natListLe as cs = true := by
  intro as
  induction as with
  | nil => intro bs cs _ _; rfl
  | cons a as ih =>
    intro bs cs h1 h2
    cases bs with
    | nil => simp [natListLe] at h1
    | cons b bs =>
      cases cs with
      | nil => simp [natListLe] at h2
      | cons c cs =>
        simp only [natListLe] at h1 h2 ⊢
        by_cases hab : a < b
        · by_cases hbc : b < c
          · have hac : a < c := lt_trans hab hbc
            simp [hac]
          · by_cases hcb : c < b
            · rw [if_neg hbc, if_pos hcb] at h2; cases h2
            · have hac : a < c := by omega
              simp [hac]
        · by_cases hba : b < a
          · rw [if_neg hab, if_pos hba] at h1; cases h1
          · have hae : a = b := by omega
            subst hae
            rw [if_neg hab, if_neg hba] at h1
            by_cases hac : a < c
            · simp [hac]
            · by_cases hca : c < a
              · rw [if_neg hac, if_pos hca] at h2; cases h2
              · rw [if_neg hac, if_neg hca] at h2
                rw [if_neg hac, if_neg hca]
                exact ih bs cs h1 h2

/-- Totality of the id order. -/
theorem idnLe_total (a b : String) : idnLe a b = true ∨ idnLe b a = true :=
  natListLe_total _ _

/-- Transitivity of the id order. -/
theorem idnLe_trans {a b c : String} (h1 : idnLe a b = true)
    (h2 : idnLe b c = true) : idnLe a c = true :=
  natListLe_trans _ _ _ h1 h2

/-- Inserting into a list sorted by `idn` keeps it sorted. -/
theorem pairwise_insertByIdn {r : DNBRecord} {l : List DNBRecord}
    (h : l.Pairwise (fun a b => idnLe a.idn b.idn = true)) :
    (insertByIdn r l).Pairwise (fun a b => idnLe a.idn b.idn = true) := by
  induction l with
  | nil => simp [insertByIdn]
  | cons y ys ih =>
    rcases List.pairwise_cons.mp h with ⟨hy, hys⟩
    by_cases hle : idnLe r.idn y.idn = true
    · simp only [insertByIdn, if_pos hle]
      refine List.pairwise_cons.mpr ⟨?_, h⟩
      intro b hb
      rcases List.mem_cons.mp hb with rfl | hb
      · exact hle
      · exact idnLe_trans hle (hy b hb)
    · simp only [insertByIdn, if_neg hle]
      refine List.pairwise_cons.mpr ⟨?_, ih hys⟩
      intro b hb
      rcases mem_insertByIdn.mp hb with heq | hb
      · rw [heq]
        rcases idnLe_total r.idn y.idn with h' | h'
        · exact absurd h' hle
        · exact h'
      · exact hy b hb

/-- The `ORDER BY idn` sort sorts. -/
theorem pairwise_sortByIdn (l : List DNBRecord) :
    (sortByIdn l).Pairwise (fun a b => idnLe a.idn b.idn = true) := by
  induction l with
  | nil => simp [sortByIdn]
  | cons y ys ih => exact pairwise_insertByIdn ih

/-- `LIMIT batch_size` bounds the size of a query result. -/
theorem queryBatch_length (db : List DNBRecord) (snapshot : List String)
    (offset n : Nat) : (queryBatch db snapshot offset n).length ≤ n := by
  unfold queryBatch
  rw [List.length_map]
  exact List.length_take_le _ _

/-- A query result is sorted by the id. -/
theorem queryBatch_sorted (db : List DNBRecord) (snapshot : List String)
    (offset n : Nat) :
    (queryBatch db snapshot offset n).Pairwise
      (fun p q => idnLe p.1 q.1 = true) := by
  unfold queryBatch
  exact List.Pairwise.map _ (fun a b h => h)
    (List.Pairwise.sublist
      ((List.take_sublist _ _).trans (List.drop_sublist _ _))
      (pairwise_sortByIdn _))

/-- Every pair in a query result comes from a database row that passes the
three query filters. -/
theorem queryBatch_mem {db : List DNBRecord} {snapshot : List String}
    {offset n : Nat} {p : String × String}
    (hp : p ∈ queryBatch db snapshot offset n) :
    ∃ r, r ∈ db ∧ r.idn = p.1 ∧ r.url_dnb_archive = some p.2 ∧
      r.converted_file = none ∧ snapshot.contains r.idn = false := by
  unfold queryBatch at hp
  rcases List.mem_map.mp hp with ⟨r, hr, rfl⟩
  have hr1 : r ∈ sortByIdn (db.filter (recordEligible snapshot)) :=
    List.mem_of_mem_drop (List.mem_of_mem_take hr)
  have hr2 : r ∈ db.filter (recordEligible snapshot) := mem_sortByIdn.mp hr1
  rcases List.mem_filter.mp hr2 with ⟨hrdb, helig⟩
  unfold recordEligible at helig
  simp only [Bool.and_eq_true, Bool.not_eq_true'] at helig
  rcases helig with ⟨⟨hu, hc⟩, hb⟩
  rcases Option.isSome_iff_exists.mp hu with ⟨u, hu'⟩
  refine ⟨r, hrdb, rfl, ?_, Option.isNone_iff_eq_none.mp hc, hb⟩
  rw [hu']
  rfl

/-- Dissection of a successful `cursorNext` step. -/
theorem cursorNext_some {db : List DNBRecord} {s : CursorState} {n : Nat}
    {y : CursorYield} (h : cursorNext db s n = some y) :
    y.batch = queryBatch db s.snapshot s.offset n ∧
    y.next = ⟨s.snapshot, s.offset + n⟩ ∧ y.db = db := by
  unfold cursorNext at h
  split at h
  · cases h
  · cases h
    exact ⟨rfl, rfl, rfl⟩

/-- Every batch the generator yields is some offset page of the query
against the snapshot fixed in the generator state. -/
theorem mem_genBatches {db : List DNBRecord} {n : Nat}
    {b : List (String × String)} :
    ∀ {s : CursorState} {fuel : Nat}, b ∈ genBatches db n s fuel →
      ∃ offset, b = queryBatch db s.snapshot offset n := by
  intro s fuel
  induction fuel generalizing s with
  | zero => intro h; simp [genBatches] at h
  | succ fuel ih =>
    intro h
    unfold genBatches at h
    cases hc : cursorNext db s n with
    | none => rw [hc] at h; simp at h
    | some y =>
      rw [hc] at h
      rcases cursorNext_some hc with ⟨hbatch, hnext, _⟩
      rcases List.mem_cons.mp h with rfl | h
      · exact ⟨s.offset, hbatch⟩
      · rcases ih h with ⟨off, hoff⟩
        rw [hnext] at hoff
        exact ⟨off, hoff⟩

/-- C5: each call of the Batch Cursor performs one bounded, read-only
query: every yielded batch has at most `batch_size` rows, is sorted by
the `idn` key, and contains only rows that have a source URL, are not
marked converted and are not in the blacklist the run loaded; and a
`cursorNext` step hands the database back unchanged. -/
theorem batch_cursor_contract (db : List DNBRecord) (file : Blacklist)
    (n : Nat) :
    (∀ b ∈ get_pdf_links db file n,
      b.length ≤ n ∧
      b.Pairwise (fun p q => idnLe p.1 q.1 = true) ∧
      ∀ p ∈ b, ∃ r, r ∈ db ∧ r.idn = p.1 ∧ r.url_dnb_archive = some p.2 ∧
        r.converted_file = none ∧ (blacklistKeys file).contains p.1 = false) ∧
    (∀ s y, cursorNext db s n = some y → y.db = db) := by
  constructor
  · intro b hb
    rcases mem_genBatches hb with ⟨off, rfl⟩
    refine ⟨queryBatch_length _ _ _ _, queryBatch_sorted _ _ _ _, ?_⟩
    intro p hp
    rcases queryBatch_mem hp with ⟨r, hrdb, hidn, hurl, hconv, hbl⟩
    rw [hidn] at hbl
    exact ⟨r, hrdb, hidn, hurl, hconv, hbl⟩
  · intro s y h
    exact (cursorNext_some h).2.2

/-- Closed witness for C5 on a one-row database: the single yielded batch
satisfies the bound, the ordering and the filter conditions, and the step
returns the database unchanged. -/
theorem batch_cursor_contract_witness :
    ([("001", "u1")].length ≤ 5 ∧
      List.Pairwise (fun p q : String × String => idnLe p.1 q.1 = true)
        [("001", "u1")] ∧
      ∀ p ∈ [("001", "u1")], ∃ r, r ∈ cdb1 ∧ r.idn = p.1 ∧
        r.url_dnb_archive = some p.2 ∧ r.converted_file = none ∧
        (blacklistKeys []).contains p.1 = false) ∧
    (CursorYield.mk [("001", "u1")] ⟨[], 5⟩ cdb1).db = cdb1 :=
  ⟨(batch_cursor_contract cdb1 [] 5).1 [("001", "u1")] (by decide),
   (batch_cursor_contract cdb1 [] 5).2 (startCursor [])
     (CursorYield.mk [("001", "u1")] ⟨[], 5⟩ cdb1) (by decide)⟩

/-- C1 counterexample: blacklist membership is not monotonic within a
run.  With two eligible records and batch size 1, add "002" to the
blacklist file after the first batch was yielded; the id is then in the
blacklist, yet the very next batch of the same generator still contains
it, because `get_pdf_links` loaded the blacklist once at start. -/
theorem blacklist_not_monotonic_within_run :
    "002" ∈ blacklistKeys (add_to_blacklist [] "002" "Invalid PDF signature") ∧
    cursorNext cdb2 (startCursor []) 1
      = some ⟨[("001", "u1")], ⟨[], 1⟩, cdb2⟩ ∧
    cursorNext cdb2 ⟨[], 1⟩ 1
      = some ⟨[("002", "u2")], ⟨[], 2⟩, cdb2⟩ ∧
    "002" ∈ [("002", "u2")].map Prod.fst := by
  decide

/-- C1 amended: an id that is in the blacklist file when the Batch Cursor
run starts (in particular, any id blacklisted before a future run begins
and not cleared meanwhile) is absent from every batch of that run. -/
theorem blacklisted_at_start_excluded (db : List DNBRecord)
    (file : Blacklist) (n : Nat) (id : String)
    (hid : id ∈ blacklistKeys file) :
    ∀ b ∈ get_pdf_links db file n, ∀ p ∈ b, p.1 ≠ id := by
  intro b hb p hp hpe
  rcases mem_genBatches hb with ⟨off, rfl⟩
  rcases queryBatch_mem hp with ⟨r, _, hidn, _, _, hbl⟩
  rw [hidn, hpe] at hbl
  have : id ∈ blacklistKeys file → False := by
    intro hmem
    rw [List.contains_eq_any_beq] at hbl
    simp [List.any_eq_true] at hbl
    exact hbl id hmem rfl
  exact this hid

/-- Closed witness for C1 amended: a run started with "002" blacklisted
yields only the other record. -/
theorem blacklisted_at_start_excluded_witness : ("001", "u1").1 ≠ "002" :=
  blacklisted_at_start_excluded cdb2 [("002", "earlier failure")] 1 "002"
    (by decide) [("001", "u1")] (by decide) ("001", "u1") (by decide)

/-! ### Fetcher helper lemmas -/

/-- Characterization of the retry loop on a run whose every attempt fails
with a transport error: the loop walks all remaining attempts, sleeps
`2 ^ attempt` after each attempt but the last, and ends in the post-loop
blacklisting with the last transport error. -/
theorem downloadRetryLoop_requestErrors (pdf_id : String)
    (outcomes : Nat → AttemptOutcome) (parts : Nat → Option PdfFile)
    (msgs : Nat → String) (mr : Nat) (bl : Blacklist)
    (hout : ∀ i, i < mr →
      outcomes i = AttemptOutcome.requestError (parts i) (msgs i)) :
    ∀ remaining attempt lastError sleeps fs,
      attempt + remaining = mr →
      downloadRetryLoop pdf_id outcomes mr bl remaining attempt lastError sleeps fs
        = ⟨false,
           add_to_blacklist bl pdf_id
             (if remaining = 0 then lastError.getD "Unknown error"
              else "Download failed: " ++ msgs (mr - 1)),
           (if remaining = 0 then fs else ⟨none, none⟩),
           sleeps ++ (List.range' attempt (remaining - 1)).map (fun i => 2 ^ i),
           mr⟩ := by
  intro remaining
  induction remaining with
  | zero =>
    intro attempt lastError sleeps fs hinv
    simp only [downloadRetryLoop, if_pos rfl]
    simp [List.range']
    omega
  | succ r ih =>
    intro attempt lastError sleeps fs hinv
    have hlt : attempt < mr := by omega
    simp only [downloadRetryLoop]
    rw [hout attempt hlt]
    dsimp only
    by_cases hc : attempt < mr - 1
    · rw [if_pos hc]
      rw [ih (attempt + 1) _ (sleeps ++ [2 ^ attempt]) ⟨none, none⟩ (by omega)]
      have hr : r ≠ 0 := by omega
      simp only [if_neg hr, if_neg (Nat.succ_ne_zero r)]
      have hrange : List.range' attempt (r + 1 - 1)
          = attempt :: List.range' (attempt + 1) (r - 1) := by
        cases r with
        | zero => omega
        | succ s => rw [Nat.succ_sub_one, List.range'_succ, Nat.succ_sub_one]
      rw [hrange, List.map_cons, List.append_assoc, List.singleton_append]
    · rw [if_neg hc]
      have hr0 : r = 0 := by omega
      subst hr0
      rw [ih (attempt + 1) _ sleeps ⟨none, none⟩ (by omega)]
      have ha : attempt = mr - 1 := by omega
      simp [List.range', ha]

/-- C2 counterexample: the retry backoff of `download_with_retry` has no
maximum-delay cap — for every candidate cap there is a `max_retries`
value whose schedule sleeps for more than `cap` seconds, because the
delay is `2 ** attempt` with no upper bound applied. -/
theorem download_backoff_uncapped :
    ¬ ∃ cap : Nat, ∀ mr : Nat,
      ∀ d ∈ (download_with_retry "x" alwaysTimeout mr [] ⟨none, none⟩).sleeps,
        d ≤ cap := by
  rintro ⟨cap, h⟩
  have hs : (download_with_retry "x" alwaysTimeout (cap + 2) [] ⟨none, none⟩).sleeps
      = (List.range' 0 (cap + 1)).map (fun i => 2 ^ i) := by
    unfold download_with_retry
    rw [downloadRetryLoop_requestErrors "x" alwaysTimeout (fun _ => none)
      (fun _ => "timed out") (cap + 2) [] (fun i _ => rfl)
      (cap + 2) 0 none [] ⟨none, none⟩ (by omega)]
    simp
  have hmem : (2 : Nat) ^ cap
      ∈ (download_with_retry "x" alwaysTimeout (cap + 2) [] ⟨none, none⟩).sleeps := by
    rw [hs]
    refine List.mem_map.mpr ⟨cap, ?_, rfl⟩
    rw [List.mem_range'_1]
    omega
  have hle := h (cap + 2) _ hmem
  have h2 : cap < 2 ^ cap := Nat.lt_two_pow cap
  omega

/-- C2 amended: an item whose download fails with a transport error on
every attempt is retried exactly up to the attempt ceiling `max_retries`
(default 3), with exponential backoff sleeping `2 ^ attempt` seconds
after every attempt but the last (doubling per attempt, with no
maximum-delay cap); the call then returns failure, blacklists the item
with the last transport error, and leaves no file behind. -/
theorem download_retry_transport_failure (pdf_id : String)
    (outcomes : Nat → AttemptOutcome) (parts : Nat → Option PdfFile)
    (msgs : Nat → String) (mr : Nat) (bl : Blacklist) (fs : LocalFiles)
    (hmr : 0 < mr)
    (hout : ∀ i, i < mr →
      outcomes i = AttemptOutcome.requestError (parts i) (msgs i)) :
    (download_with_retry pdf_id outcomes mr bl fs).success = false ∧
    (download_with_retry pdf_id outcomes mr bl fs).attemptsUsed = mr ∧
    (download_with_retry pdf_id outcomes mr bl fs).sleeps
      = (List.range (mr - 1)).map (fun i => 2 ^ i) ∧
    (download_with_retry pdf_id outcomes mr bl fs).blacklist
      = add_to_blacklist bl pdf_id ("Download failed: " ++ msgs (mr - 1)) ∧
    (download_with_retry pdf_id outcomes mr bl fs).files = ⟨none, none⟩ := by
  unfold download_with_retry
  rw [downloadRetryLoop_requestErrors pdf_id outcomes parts msgs mr bl hout
    mr 0 none [] fs (by omega)]
  have hmr' : mr ≠ 0 := by omega
  simp [hmr', List.range_eq_range']

/-- Closed witness for C2 amended at the default `max_retries = 3`: three
attempts, sleeps of 1 and 2 seconds, failure, and a blacklist entry with
the last transport error. -/
theorem download_retry_transport_failure_witness :
    (download_with_retry "0" alwaysTimeout 3 [] ⟨none, none⟩).success = false ∧
    (download_with_retry "0" alwaysTimeout 3 [] ⟨none, none⟩).attemptsUsed = 3 ∧
    (download_with_retry "0" alwaysTimeout 3 [] ⟨none, none⟩).sleeps
      = (List.range 2).map (fun i => 2 ^ i) ∧
    (download_with_retry "0" alwaysTimeout 3 [] ⟨none, none⟩).blacklist
      = add_to_blacklist [] "0" ("Download failed: " ++ "timed out") ∧
    (download_with_retry "0" alwaysTimeout 3 [] ⟨none, none⟩).files
      = ⟨none, none⟩ :=
  download_retry_transport_failure "0" alwaysTimeout (fun _ => none)
    (fun _ => "timed out") 3 [] ⟨none, none⟩ (by decide) (fun i _ => rfl)

/-! ### Blacklist lookup lemmas -/

/-- Updating an existing key makes the updated binding the one found. -/
theorem find_map_update (bl : Blacklist) (k v : String)
    (hc : k ∈ blacklistKeys bl) :
    (bl.map (fun p => if p.1 == k then (k, v) else p)).find? (fun p => p.1 == k)
      = some (k, v) := by
  induction bl with
  | nil => cases hc
  | cons p rest ih =>
    by_cases h : (p.1 == k) = true
    · rw [List.map_cons, if_pos h, List.find?_cons_of_pos _ (by simp)]
    · have hpk : p.1 ≠ k := by simpa using h
      have hc' : k ∈ blacklistKeys rest := by
        rcases List.mem_cons.mp hc with heq | hmem
        · exact absurd heq.symm hpk
        · exact hmem
      rw [List.map_cons, if_neg h, List.find?_cons_of_neg _ (by simpa using h)]
      exact ih hc'

/-- Appending a fresh key makes the appended binding the one found. -/
theorem find_append_new (bl : Blacklist) (k v : String)
    (hc : k ∉ blacklistKeys bl) :
    (bl ++ [(k, v)]).find? (fun p => p.1 == k) = some (k, v) := by
  induction bl with
  | nil => rw [List.nil_append, List.find?_cons_of_pos _ (by simp)]
  | cons p rest ih =>
    have hpk : ¬ (p.1 == k) = true := by
      intro hb
      exact hc (by simp [blacklistKeys, (beq_iff_eq.mp hb).symm])
    have hc' : k ∉ blacklistKeys rest := fun hmem => hc (List.mem_cons_of_mem _ hmem)
    rw [List.cons_append, List.find?_cons_of_neg _ (by simpa using hpk)]
    exact ih hc'

/-- After `add_to_blacklist`, the blacklist file maps the id to the
reason. -/
theorem blacklistLookup_add (bl : Blacklist) (k v : String) :
    blacklistLookup (add_to_blacklist bl k v) k = some v := by
  unfold blacklistLookup add_to_blacklist
  by_cases hc : (blacklistKeys bl).contains k
  · rw [if_pos hc, find_map_update bl k v (List.elem_iff.mp hc)]
    rfl
  · rw [if_neg hc, find_append_new bl k v (fun hm => hc (List.elem_iff.mpr hm))]
    rfl

/-! ### Validation-failure and success lemmas for the retry loop -/

/-- If the loop reaches an attempt whose body downloads content that
fails validation (all earlier attempts being transport errors), it stops
right there: no further attempt, blacklist entry with the validation
reason, temp file removed. -/
theorem downloadRetryLoop_validationFailure (pdf_id : String)
    (outcomes : Nat → AttemptOutcome) (mr : Nat) (bl : Blacklist)
    (f : PdfFile) (reason : String)
    (hval : validate_pdf f = (false, some reason)) :
    ∀ remaining attempt lastError sleeps fs j,
      attempt + remaining = mr → j < mr → attempt ≤ j →
      (∀ i, attempt ≤ i → i < j →
        ∃ p m, outcomes i = AttemptOutcome.requestError p m) →
      outcomes j = AttemptOutcome.content f →
      ∃ sleeps' finalFile,
        downloadRetryLoop pdf_id outcomes mr bl remaining attempt lastError sleeps fs
          = ⟨false, add_to_blacklist bl pdf_id reason, ⟨none, finalFile⟩,
             sleeps', j + 1⟩ := by
  intro remaining
  induction remaining with
  | zero =>
    intro attempt lastError sleeps fs j hinv hj haj _ _
    omega
  | succ r ih =>
    intro attempt lastError sleeps fs j hinv hj haj hbefore hcontent
    by_cases heq : attempt = j
    · subst heq
      simp only [downloadRetryLoop]
      rw [hcontent]
      dsimp only
      rw [hval]
      dsimp only
      exact ⟨sleeps, fs.final, by simp⟩
    · have hlt : attempt < j := by omega
      rcases hbefore attempt (le_refl _) hlt with ⟨p, m, hre⟩
      simp only [downloadRetryLoop]
      rw [hre]
      dsimp only
      by_cases hc : attempt < mr - 1
      · rw [if_pos hc]
        exact ih (attempt + 1) _ _ ⟨none, none⟩ j (by omega) hj (by omega)
          (fun i hi1 hi2 => hbefore i (by omega) hi2) hcontent
      · rw [if_neg hc]
        exact ih (attempt + 1) _ _ ⟨none, none⟩ j (by omega) hj (by omega)
          (fun i hi1 hi2 => hbefore i (by omega) hi2) hcontent

/-- A successful loop run leaves exactly a validated file at the final
path and nothing at the temp path. -/
theorem downloadRetryLoop_success_validated (pdf_id : String)
    (outcomes : Nat → AttemptOutcome) (mr : Nat) (bl : Blacklist) :
    ∀ remaining attempt lastError sleeps fs,
      (downloadRetryLoop pdf_id outcomes mr bl remaining attempt lastError
          sleeps fs).success = true →
      ∃ f, (downloadRetryLoop pdf_id outcomes mr bl remaining attempt lastError
              sleeps fs).files = ⟨none, some f⟩ ∧ (validate_pdf f).1 = true := by
  intro remaining
  induction remaining with
  | zero =>
    intro attempt lastError sleeps fs h
    simp [downloadRetryLoop] at h
  | succ r ih =>
    intro attempt lastError sleeps fs h
    simp only [downloadRetryLoop] at h ⊢
    cases hout : outcomes attempt with
    | content f =>
      rw [hout] at h
      dsimp only at h ⊢
      split at h
      next snd heq => exact ⟨f, rfl, by rw [heq]⟩
      next reason heq => simp at h
    | requestError p m =>
      rw [hout] at h
      dsimp only at h ⊢
      by_cases hc : attempt < mr - 1
      · rw [if_pos hc] at h ⊢
        exact ih _ _ _ _ h
      · rw [if_neg hc] at h ⊢
        exact ih _ _ _ _ h
    | unexpectedError p m =>
      rw [hout] at h
      dsimp only at h
      cases h

/-- Every entry of the `downloaded` list of `download_batch` carries a
file that passed `validate_pdf`. -/
theorem download_batch_downloaded_validated
    (outcomes : String → Nat → AttemptOutcome) (blacklistVar : Blacklist) :
    ∀ (batch : List (String × String)) (file : Blacklist)
      (db : List DNBRecord),
      ∀ e ∈ (download_batch outcomes blacklistVar batch file db).downloaded,
        ∃ f, e.2.2 = some f ∧ (validate_pdf f).1 = true := by
  intro batch
  induction batch with
  | nil => intro file db e he; simp [download_batch] at he
  | cons item rest ih =>
    intro file db e he
    rcases item with ⟨pdf_id, pdf_url⟩
    simp only [download_batch] at he
    by_cases hb : ((blacklistKeys blacklistVar).contains pdf_id) = true
    · rw [if_pos hb] at he
      exact ih _ _ e he
    · rw [if_neg hb] at he
      by_cases hs : (download_with_retry pdf_id (outcomes pdf_id) 3 file
          ⟨none, none⟩).success = true
      · rw [if_pos hs] at he
        rcases List.mem_cons.mp he with heq | he
        · rcases downloadRetryLoop_success_validated pdf_id (outcomes pdf_id)
              3 file 3 0 none [] ⟨none, none⟩ hs with ⟨f, hf, hvf⟩
          refine ⟨f, ?_, hvf⟩
          rw [heq]
          show (download_with_retry pdf_id (outcomes pdf_id) 3 file
              ⟨none, none⟩).files.final = some f
          rw [show download_with_retry pdf_id (outcomes pdf_id) 3 file
              ⟨none, none⟩ = downloadRetryLoop pdf_id (outcomes pdf_id) 3 file
              3 0 none [] ⟨none, none⟩ from rfl, hf]
        · exact ih _ _ e he
      · rw [if_neg hs] at he
        exact ih _ _ e he

/-- `process_batch` invokes the converter only on content that passed the
re-validation of `convert.py` line 256. -/
theorem processItem_conv_validated (convOutcomes : Nat → ConvOutcome)
    (upload : UploadOutcome) (db : List DNBRecord) (cc : Nat)
    (pdf_id : String) (content : Option PdfFile)
    (h : 1 ≤ (processItem convOutcomes upload db cc pdf_id content).1.convCalls) :
    ∃ f, content = some f ∧ (validate_pdf f).1 = true := by
  rcases content with _ | f
  · simp [processItem] at h
  · refine ⟨f, rfl, ?_⟩
    unfold processItem at h
    dsimp only at h
    by_cases hz : f.bytes.length = 0
    · rw [if_pos hz] at h
      dsimp only at h
      exact absurd h (by omega)
    · rw [if_neg hz] at h
      split at h
      next snd heq => simp at h
      next snd heq => rw [heq]

/-- C3: an item whose downloaded content fails `validate_pdf` is
blacklisted at once with the (non-empty) validation reason, the call
makes no further download attempt, and such an item is never handed to
the converter: everything `download_batch` passes on carries validated
content, and `process_batch` calls the converter only after a fresh
validation succeeds. -/
theorem validation_failure_permanent :
    (∀ (pdf_id : String) (outcomes : Nat → AttemptOutcome) (mr : Nat)
       (bl : Blacklist) (fs : LocalFiles) (j : Nat) (f : PdfFile)
       (reason : String),
      j < mr →
      (∀ i, i < j → ∃ p m, outcomes i = AttemptOutcome.requestError p m) →
      outcomes j = AttemptOutcome.content f →
      validate_pdf f = (false, some reason) →
      (download_with_retry pdf_id outcomes mr bl fs).success = false ∧
      (download_with_retry pdf_id outcomes mr bl fs).attemptsUsed = j + 1 ∧
      blacklistLookup (download_with_retry pdf_id outcomes mr bl fs).blacklist
          pdf_id = some reason ∧
      0 < reason.length ∧
      (download_with_retry pdf_id outcomes mr bl fs).files.temp = none) ∧
    (∀ (outcomes : String → Nat → AttemptOutcome) (blacklistVar : Blacklist)
       (batch : List (String × String)) (file : Blacklist)
       (db : List DNBRecord),
      ∀ e ∈ (download_batch outcomes blacklistVar batch file db).downloaded,
        ∃ f, e.2.2 = some f ∧ (validate_pdf f).1 = true) ∧
    (∀ (convOutcomes : Nat → ConvOutcome) (upload : UploadOutcome)
       (db : List DNBRecord) (cc : Nat) (pdf_id : String)
       (content : Option PdfFile),
      1 ≤ (processItem convOutcomes upload db cc pdf_id content).1.convCalls →
      ∃ f, content = some f ∧ (validate_pdf f).1 = true) := by
  refine ⟨?_, download_batch_downloaded_validated, processItem_conv_validated⟩
  intro pdf_id outcomes mr bl fs j f reason hj hbefore hcontent hval
  rcases downloadRetryLoop_validationFailure pdf_id outcomes mr bl f reason hval
      mr 0 none [] fs j (by omega) hj (by omega)
      (fun i _ hi => hbefore i hi) hcontent with ⟨sleeps', finalFile, heq⟩
  have hres : download_with_retry pdf_id outcomes mr bl fs
      = ⟨false, add_to_blacklist bl pdf_id reason, ⟨none, finalFile⟩,
         sleeps', j + 1⟩ := heq
  rw [hres]
  refine ⟨rfl, rfl, blacklistLookup_add bl pdf_id reason, ?_, rfl⟩
  rcases (validate_pdf_spec_aux f).1 (by rw [hval]) with ⟨r, hr, hlen⟩
  rw [hval] at hr
  cases hr
  exact hlen

/-- Closed witness for C3: a bad-signature download is rejected on the
first attempt with the signature reason; a good download flows through
`download_batch` validated; a converter call implies validated content. -/
theorem validation_failure_permanent_witness :
    ((download_with_retry "7" (alwaysContent badSigPdf) 3 [] ⟨none, none⟩).success
        = false ∧
      (download_with_retry "7" (alwaysContent badSigPdf) 3 [] ⟨none, none⟩).attemptsUsed
        = 0 + 1 ∧
      blacklistLookup (download_with_retry "7" (alwaysContent badSigPdf) 3 []
          ⟨none, none⟩).blacklist "7" = some "Invalid PDF signature" ∧
      0 < "Invalid PDF signature".length ∧
      (download_with_retry "7" (alwaysContent badSigPdf) 3 []
          ⟨none, none⟩).files.temp = none) ∧
    (∃ f, (("001", "u1", some goodPdf) : String × String × Option PdfFile).2.2
        = some f ∧ (validate_pdf f).1 = true) ∧
    (∃ f, (some goodPdf : Option PdfFile) = some f ∧ (validate_pdf f).1 = true) :=
  ⟨validation_failure_permanent.1 "7" (alwaysContent badSigPdf) 3 [] ⟨none, none⟩
      0 badSigPdf "Invalid PDF signature" (by decide) (fun i hi => absurd hi (by omega))
      rfl (by decide),
   validation_failure_permanent.2.1 (fun _ => alwaysContent goodPdf) []
      [("001", "u1")] [] cdb1 ("001", "u1", some goodPdf) (by decide),
   validation_failure_permanent.2.2 (fun _ => ConvOutcome.ok "# md")
      (UploadOutcome.returned (some "fid") (some "doc.mmd")) cdb1 0 "001"
      (some goodPdf) (by decide)⟩

/-! ### File-discipline lemmas for the retry loop -/

/-- On every exit of the retry loop, the temp path is clean (or untouched
from the initial state), and any file at the final path is either a
validated download or was already there when the loop started. -/
theorem downloadRetryLoop_files (pdf_id : String)
    (outcomes : Nat → AttemptOutcome) (mr : Nat) (bl : Blacklist) :
    ∀ remaining attempt lastError sleeps fs,
      ((downloadRetryLoop pdf_id outcomes mr bl remaining attempt lastError
          sleeps fs).files.temp = none ∨
        (downloadRetryLoop pdf_id outcomes mr bl remaining attempt lastError
          sleeps fs).files.temp = fs.temp) ∧
      (∀ f, (downloadRetryLoop pdf_id outcomes mr bl remaining attempt
              lastError sleeps fs).files.final = some f →
        (validate_pdf f).1 = true ∨ fs.final = some f) := by
  intro remaining
  induction remaining with
  | zero =>
    intro attempt lastError sleeps fs
    exact ⟨Or.inr rfl, fun f hf => Or.inr hf⟩
  | succ r ih =>
    intro attempt lastError sleeps fs
    simp only [downloadRetryLoop]
    cases hout : outcomes attempt with
    | content f =>
      dsimp only
      split
      next snd heq =>
        refine ⟨Or.inl rfl, fun g hg => ?_⟩
        cases hg
        exact Or.inl (by rw [heq])
      next reason heq =>
        exact ⟨Or.inl rfl, fun g hg => Or.inr hg⟩
    | requestError p m =>
      dsimp only
      by_cases hc : attempt < mr - 1
      · rw [if_pos hc]
        rcases ih (attempt + 1) (some ("Download failed: " ++ m))
            (sleeps ++ [2 ^ attempt]) ⟨none, none⟩ with ⟨h1, h2⟩
        refine ⟨?_, fun g hg => ?_⟩
        · rcases h1 with h1 | h1
          · exact Or.inl h1
          · exact Or.inl h1
        · rcases h2 g hg with hv | habs
          · exact Or.inl hv
          · simp at habs
      · rw [if_neg hc]
        rcases ih (attempt + 1) (some ("Download failed: " ++ m))
            sleeps ⟨none, none⟩ with ⟨h1, h2⟩
        refine ⟨?_, fun g hg => ?_⟩
        · rcases h1 with h1 | h1
          · exact Or.inl h1
          · exact Or.inl h1
        · rcases h2 g hg with hv | habs
          · exact Or.inl hv
          · simp at habs
    | unexpectedError p m =>
      dsimp only
      exact ⟨Or.inl rfl, fun g hg => by simp at hg⟩

/-- C6 counterexample: `download_and_save_file` (the Fetcher variant of
`converter2/download_files.py`) moves the downloaded content to the final
path without any structural validation — a file with an invalid PDF
signature ends up under the final name. -/
theorem rename_without_validation :
    (download_and_save_file "123" ".pdf" (HttpOutcome.body badSigPdf)
        (fun _ => 0) none).2.finalFile = some badSigPdf ∧
    (validate_pdf badSigPdf).1 = false :=
  ⟨rfl, by decide⟩

/-- C6 amended: `download_with_retry` writes only to the temp path and
renames to the final path only after successful validation — starting
with a clean temp path, every exit path leaves the temp path clean, and
any file at the final path is either a validated download or predates the
call; `download_and_save_file` also cleans its temp file on every exit
path, but it renames after a complete download without structural
validation. -/
theorem fetcher_file_discipline :
    (∀ (pdf_id : String) (outcomes : Nat → AttemptOutcome) (mr : Nat)
       (bl : Blacklist) (fs : LocalFiles), fs.temp = none →
      (download_with_retry pdf_id outcomes mr bl fs).files.temp = none ∧
      ∀ f, (download_with_retry pdf_id outcomes mr bl fs).files.final = some f →
        (validate_pdf f).1 = true ∨ fs.final = some f) ∧
    (∀ (id ext : String) (http : HttpOutcome) (fitzPages : PdfFile → Nat)
       (existingFinal : Option PdfFile),
      (download_and_save_file id ext http fitzPages existingFinal).2.tempFile
        = none) := by
  constructor
  · intro pdf_id outcomes mr bl fs hfs
    unfold download_with_retry
    rcases downloadRetryLoop_files pdf_id outcomes mr bl mr 0 none [] fs
      with ⟨h1, h2⟩
    refine ⟨?_, h2⟩
    rcases h1 with h1 | h1
    · exact h1
    · rw [h1, hfs]
  · intro id ext http fitzPages existingFinal
    cases http with
    | raised m => rfl
    | body f =>
      cases existingFinal with
      | some old => rfl
      | none => rfl

/-- Closed witness for C6: an all-timeouts retry run leaves both paths
clean, and a failed `download_and_save_file` call leaves no temp file. -/
theorem fetcher_file_discipline_witness :
    ((download_with_retry "9" alwaysTimeout 3 [] ⟨none, none⟩).files.temp
        = none ∧
      ∀ f, (download_with_retry "9" alwaysTimeout 3 [] ⟨none, none⟩).files.final
          = some f →
        (validate_pdf f).1 = true ∨ (⟨none, none⟩ : LocalFiles).final = some f) ∧
    (download_and_save_file "123" ".pdf" (HttpOutcome.raised "connection reset")
        (fun _ => 0) none).2.tempFile = none :=
  ⟨fetcher_file_discipline.1 "9" alwaysTimeout 3 [] ⟨none, none⟩ rfl,
   fetcher_file_discipline.2 "123" ".pdf" (HttpOutcome.raised "connection reset")
     (fun _ => 0) none⟩

/-! ### Conversion/offload lemmas -/

/-- Once the existence, size, validation and metadata checks pass,
`processItem` is exactly the conversion-and-upload tail. -/
theorem processItem_conversion_step (convOutcomes : Nat → ConvOutcome)
    (upload : UploadOutcome) (db : List DNBRecord) (cc : Nat)
    (pdf_id : String) (f : PdfFile)
    (hz : f.bytes.length ≠ 0) (hv : (validate_pdf f).1 = true) :
    processItem convOutcomes upload db cc pdf_id (some f)
      = match convOutcomes cc with
        | .raised _ => (⟨pdf_id, false, 1, false, false, none⟩, db, cc + 1)
        | .ok _ =>
          if (upload_file_to_drive upload).success then
            (⟨pdf_id, true, 1, false, false,
                some ((upload_file_to_drive upload).file_id.getD "",
                      (upload_file_to_drive upload).filename.getD "")⟩,
             mark_record_as_processed db pdf_id
               (upload_file_to_drive upload).file_id
               (upload_file_to_drive upload).filename,
             cc + 1)
          else (⟨pdf_id, false, 1, false, false, none⟩, db, cc + 1) := by
  have hveq : validate_pdf f = (true, (validate_pdf f).2) := by
    rcases hvp : validate_pdf f with ⟨b, r⟩
    rw [hvp] at hv
    dsimp only at hv
    subst hv
    rfl
  rcases (validate_pdf_spec_aux f).2 hv with ⟨hsig, n, hparse, _, _⟩
  unfold processItem
  dsimp only
  rw [if_neg hz, hveq]
  dsimp only
  rw [hparse]

/-- `process_batch` never writes the blacklist file. -/
theorem process_batch_blacklist_unchanged (convOutcomes : Nat → ConvOutcome)
    (uploads : String → UploadOutcome) :
    ∀ (items : List (String × String × Option PdfFile)) (db : List DNBRecord)
      (bl : Blacklist) (cc : Nat),
      (process_batch convOutcomes uploads items db bl cc).blacklistFile = bl := by
  intro items
  induction items with
  | nil => intro db bl cc; rfl
  | cons item rest ih =>
    intro db bl cc
    rcases item with ⟨pid, purl, c⟩
    simp only [process_batch]
    exact ih _ _ _

/-- C8: on a successful upload the artifact is renamed into the
`uploaded/` area and the external (file id, filename) reference is
returned and recorded; on a failed upload nothing is moved, the derived
artifact and the source pdf are removed by the `finally` block, and the
item is neither marked in the database nor blacklisted, so it stays
eligible for a future run. -/
theorem offload_sink_contract :
    (∀ i n : String, upload_file_to_drive (UploadOutcome.returned (some i) (some n))
        = ⟨true, some i, some n, true⟩) ∧
    (∀ u : UploadOutcome, (upload_file_to_drive u).success = false →
        (upload_file_to_drive u).movedToUploaded = false) ∧
    (∀ (convOutcomes : Nat → ConvOutcome) (upload : UploadOutcome)
       (db : List DNBRecord) (cc : Nat) (pdf_id : String) (f : PdfFile)
       (md : String),
      f.bytes.length ≠ 0 → (validate_pdf f).1 = true →
      convOutcomes cc = ConvOutcome.ok md →
      (upload_file_to_drive upload).success = false →
      (processItem convOutcomes upload db cc pdf_id (some f)).1.ok = false ∧
      (processItem convOutcomes upload db cc pdf_id (some f)).1.pdfRemains = false ∧
      (processItem convOutcomes upload db cc pdf_id (some f)).1.mmdRemains = false ∧
      (processItem convOutcomes upload db cc pdf_id (some f)).1.uploadedArtifact = none ∧
      (processItem convOutcomes upload db cc pdf_id (some f)).2.1 = db) ∧
    (∀ (convOutcomes : Nat → ConvOutcome) (db : List DNBRecord) (cc : Nat)
       (pdf_id : String) (f : PdfFile) (md : String) (i n : String),
      f.bytes.length ≠ 0 → (validate_pdf f).1 = true →
      convOutcomes cc = ConvOutcome.ok md →
      (processItem convOutcomes (UploadOutcome.returned (some i) (some n))
          db cc pdf_id (some f)).1.ok = true ∧
      (processItem convOutcomes (UploadOutcome.returned (some i) (some n))
          db cc pdf_id (some f)).1.uploadedArtifact = some (i, n) ∧
      (processItem convOutcomes (UploadOutcome.returned (some i) (some n))
          db cc pdf_id (some f)).2.1
        = mark_record_as_processed db pdf_id (some i) (some n)) ∧
    (∀ (convOutcomes : Nat → ConvOutcome) (uploads : String → UploadOutcome)
       (items : List (String × String × Option PdfFile)) (db : List DNBRecord)
       (bl : Blacklist) (cc : Nat),
      (process_batch convOutcomes uploads items db bl cc).blacklistFile = bl) := by
  refine ⟨fun i n => rfl, ?_, ?_, ?_, process_batch_blacklist_unchanged⟩
  · intro u h
    cases u with
    | raised m => rfl
    | returned fid fname =>
      cases fid with
      | none => rfl
      | some i =>
        cases fname with
        | none => rfl
        | some n => simp [upload_file_to_drive] at h
  · intro convOutcomes upload db cc pdf_id f md hz hv hconv hup
    rw [processItem_conversion_step convOutcomes upload db cc pdf_id f hz hv,
        hconv]
    dsimp only
    rw [if_neg (by simp [hup])]
    exact ⟨rfl, rfl, rfl, rfl, rfl⟩
  · intro convOutcomes db cc pdf_id f md i n hz hv hconv
    rw [processItem_conversion_step convOutcomes
        (UploadOutcome.returned (some i) (some n)) db cc pdf_id f hz hv, hconv]
    dsimp only
    rw [if_pos (by rfl)]
    exact ⟨rfl, rfl, rfl⟩

/-- Closed witness for C8: a good file whose upload raises is cleaned up
and left unmarked; one whose upload returns an id/name pair is marked and
its artifact reference recorded. -/
theorem offload_sink_contract_witness :
    ((upload_file_to_drive (UploadOutcome.raised "quota")).movedToUploaded
        = false) ∧
    ((processItem (fun _ => ConvOutcome.ok "# md") (UploadOutcome.raised "quota")
        cdb1 0 "001" (some goodPdf)).1.ok = false ∧
      (processItem (fun _ => ConvOutcome.ok "# md") (UploadOutcome.raised "quota")
        cdb1 0 "001" (some goodPdf)).1.pdfRemains = false ∧
      (processItem (fun _ => ConvOutcome.ok "# md") (UploadOutcome.raised "quota")
        cdb1 0 "001" (some goodPdf)).1.mmdRemains = false ∧
      (processItem (fun _ => ConvOutcome.ok "# md") (UploadOutcome.raised "quota")
        cdb1 0 "001" (some goodPdf)).1.uploadedArtifact = none ∧
      (processItem (fun _ => ConvOutcome.ok "# md") (UploadOutcome.raised "quota")
        cdb1 0 "001" (some goodPdf)).2.1 = cdb1) ∧
    ((processItem (fun _ => ConvOutcome.ok "# md")
        (UploadOutcome.returned (some "fid") (some "doc.mmd"))
        cdb1 0 "001" (some goodPdf)).1.ok = true ∧
      (processItem (fun _ => ConvOutcome.ok "# md")
        (UploadOutcome.returned (some "fid") (some "doc.mmd"))
        cdb1 0 "001" (some goodPdf)).1.uploadedArtifact = some ("fid", "doc.mmd") ∧
      (processItem (fun _ => ConvOutcome.ok "# md")
        (UploadOutcome.returned (some "fid") (some "doc.mmd"))
        cdb1 0 "001" (some goodPdf)).2.1
        = mark_record_as_processed cdb1 "001" (some "fid") (some "doc.mmd")) :=
  ⟨offload_sink_contract.2.1 (UploadOutcome.raised "quota") rfl,
   offload_sink_contract.2.2.1 (fun _ => ConvOutcome.ok "# md")
     (UploadOutcome.raised "quota") cdb1 0 "001" goodPdf "# md"
     (by decide) (by decide) rfl rfl,
   offload_sink_contract.2.2.2.1 (fun _ => ConvOutcome.ok "# md")
     cdb1 0 "001" goodPdf "# md" "fid" "doc.mmd" (by decide) (by decide) rfl⟩

/-- C9 counterexample: `process_batch` has a single conversion context
and performs no slot rotation — on a task whose first conversion call
raises CUDA out of memory, exactly one conversion call is made and the
task is reported failed, even though a second call (the retry the claim
asserts) would have succeeded. -/
theorem no_oom_slot_retry :
    process_batch oomThenOk
        (fun _ => UploadOutcome.returned (some "fid") (some "doc.mmd"))
        [("001", "u1", some goodPdf)] cdb1 [] 0
      = ⟨[false], [⟨"001", false, 1, false, false, none⟩], cdb1, [], 1⟩ ∧
    oomThenOk 1 = ConvOutcome.ok "# converted" := by
  decide

/-- C9 amended: a conversion task that raises an exception (including an
out-of-memory error) fails after exactly one conversion call — there is
no slot pool, no memory release and no retry on another slot — and the
task is reported failed but never blacklisted and never marked in the
database. -/
theorem conversion_exception_no_retry :
    (∀ (convOutcomes : Nat → ConvOutcome) (upload : UploadOutcome)
       (db : List DNBRecord) (cc : Nat) (pdf_id : String) (f : PdfFile)
       (msg : String),
      f.bytes.length ≠ 0 → (validate_pdf f).1 = true →
      convOutcomes cc = ConvOutcome.raised msg →
      (processItem convOutcomes upload db cc pdf_id (some f)).1.ok = false ∧
      (processItem convOutcomes upload db cc pdf_id (some f)).1.convCalls = 1 ∧
      (processItem convOutcomes upload db cc pdf_id (some f)).2.2 = cc + 1 ∧
      (processItem convOutcomes upload db cc pdf_id (some f)).2.1 = db ∧
      (processItem convOutcomes upload db cc pdf_id (some f)).1.uploadedArtifact
        = none) ∧
    (∀ (convOutcomes : Nat → ConvOutcome) (uploads : String → UploadOutcome)
       (items : List (String × String × Option PdfFile)) (db : List DNBRecord)
       (bl : Blacklist) (cc : Nat),
      (process_batch convOutcomes uploads items db bl cc).blacklistFile = bl) := by
  refine ⟨?_, process_batch_blacklist_unchanged⟩
  intro convOutcomes upload db cc pdf_id f msg hz hv hconv
  rw [processItem_conversion_step convOutcomes upload db cc pdf_id f hz hv,
      hconv]
  exact ⟨rfl, rfl, rfl, rfl, rfl⟩

/-- Closed witness for C9 amended: the out-of-memory raising task makes
one conversion call, fails, and leaves the database untouched. -/
theorem conversion_exception_no_retry_witness :
    (processItem oomThenOk (UploadOutcome.returned (some "fid") (some "doc.mmd"))
        cdb1 0 "001" (some goodPdf)).1.ok = false ∧
    (processItem oomThenOk (UploadOutcome.returned (some "fid") (some "doc.mmd"))
        cdb1 0 "001" (some goodPdf)).1.convCalls = 1 ∧
    (processItem oomThenOk (UploadOutcome.returned (some "fid") (some "doc.mmd"))
        cdb1 0 "001" (some goodPdf)).2.2 = 0 + 1 ∧
    (processItem oomThenOk (UploadOutcome.returned (some "fid") (some "doc.mmd"))
        cdb1 0 "001" (some goodPdf)).2.1 = cdb1 ∧
    (processItem oomThenOk (UploadOutcome.returned (some "fid") (some "doc.mmd"))
        cdb1 0 "001" (some goodPdf)).1.uploadedArtifact = none :=
  conversion_exception_no_retry.1 oomThenOk
    (UploadOutcome.returned (some "fid") (some "doc.mmd"))
    cdb1 0 "001" goodPdf "CUDA out of memory" (by decide) (by decide) rfl

end DnbMarc
